import Mathlib

/-!
Shallow embedding of `src/backend/app.py`: a LangGraph-driven counseling
workflow (Counsel → Evaluate → {Search → Counsel → Evaluate} → Summarize|END)
behind two Flask endpoints, plus an in-memory per-session statistics store and
a 7-day dashboard aggregation.

Conventions of the embedding:
* Python floats are modelled as `Rat` (no rounding is relevant to any claim).
* Python exceptions are modelled with `Except`: a function with no
  try/except around a fallible call propagates the error value.
* JSON-like dynamic Python values (the search collaborator's payload) are the
  inductive `PyVal`; `json.loads` is an arbitrary parameter
  `parse : String → Option PyVal` (`none` = raise), since `json` is stdlib.
* External collaborators (the three LLM calls and the search tool) are an
  oracle record `Collab`; a call either fails (`Except.error`) or returns a
  payload, exactly at the interface the source consumes.
-/

namespace App

/-- Role of a chat message (`user` / `assistant` / `system`). -/
inductive Role where
  | user
  | assistant
  | system
deriving DecidableEq, Repr

/-- One chat message: a role plus text content (LangChain message with a
string `content`). -/
structure Msg where
  role : Role
  content : String
deriving DecidableEq, Repr

/-- A JSON-like dynamic Python value, as handled by
`_normalize_search_result`: `None`, `str`, `bool`, `int`, `float`, `list`,
`dict`, or an arbitrary object carrying a `content` attribute (the LangChain
message case; `getattr(obj, "content", None)` yields `vNone` for objects
without one, which every other constructor models). -/
inductive PyVal where
  | vNone
  | vStr (s : String)
  | vBool (b : Bool)
  | vInt (n : Int)
  | vFloat (q : Rat)
  | vList (items : List PyVal)
  | vDict (entries : List (String × PyVal))
  | vObj (content : PyVal)

namespace PyVal

/-- Python `str(v)` for the values a dict entry can hold; the exact text is
irrelevant to every claim (the source only uses it to force
serializability), but the function is total and executable. -/
def pyStr : PyVal → String
  | vNone => "None"
  | vStr s => s
  | vBool b => if b then "True" else "False"
  | vInt n => toString n
  | vFloat q => toString q
  | vList _ => "[...]"
  | vDict _ => "{...}"
  | vObj _ => "<object>"

/-- Is this one of the primitive types kept verbatim by the normalizer
(`isinstance(v, (str, int, float, bool))`)? -/
def isPrim : PyVal → Bool
  | vStr _ => true
  | vInt _ => true
  | vFloat _ => true
  | vBool _ => true
  | _ => false

end PyVal

open PyVal

/-- Python `str.strip()` with the default whitespace set: drop leading and
trailing whitespace characters. Implemented structurally over the character
list (Lean's own `String.trim` is defined by well-founded recursion and
does not evaluate definitionally). -/
def pyStrip (s : String) : String :=
  String.mk
    (((s.toList.dropWhile Char.isWhitespace).reverse.dropWhile
        Char.isWhitespace).reverse)

/-- Sanitize one dict: keep str/int/float/bool values, stringify the rest
(`{k: (v if isinstance(v, (str, int, float, bool)) else str(v)) ...}`). -/
def sanitizeDict (d : List (String × PyVal)) : List (String × PyVal) :=
  d.map fun kv => (kv.1, if kv.2.isPrim then kv.2 else PyVal.vStr kv.2.pyStr)

/-- Keep only the dict items of a list, sanitized (the
`for item in data: if isinstance(item, dict): out.append(...)` loops). -/
def filterDicts (items : List PyVal) : List (List (String × PyVal)) :=
  items.filterMap fun item =>
    match item with
    | PyVal.vDict d => some (sanitizeDict d)
    | _ => none

/-- Embedding of `_normalize_search_result(obj)` (app.py lines 150-194),
parameterized by the `json.loads` behaviour `parse` (`none` models a raised
`json` decode error). Control flow follows the source exactly: the `None`
check, then the `content`-attribute branch (which falls through when the
parsed JSON is not a list — and every object with a `content` attribute is
neither list, dict nor str, so the fall-through ends at the final
`return []`), then the list / dict / str branches, then `return []`. -/
def normalize_search_result (parse : String → Option PyVal)
    (obj : PyVal) : List (List (String × PyVal)) :=
  match obj with
  | PyVal.vNone => []
  | PyVal.vObj c =>
      match c with
      | PyVal.vStr s =>
          match parse s with
          | none => []
          | some (PyVal.vList items) => filterDicts items
          | some _ => []
      | _ => []
  | PyVal.vList items => filterDicts items
  | PyVal.vDict d => [sanitizeDict d]
  | PyVal.vStr s =>
      match parse s with
      | none => []
      | some (PyVal.vList items) => filterDicts items
      | some _ => []
  | _ => []

/-- A runtime graph-state dict. The channels declared by the Python
`State` TypedDict (app.py lines 43-50) are `messages` through
`search_result`. The three score keys `anxiety` / `depression` / `stress`
are additionally modelled as optional fields because two pieces of source
code handle such a dict: `evaluator_node`'s returned dict carries them
(app.py lines 118-120) and `_invoke_hermes` reads them defensively with
`final.get(..., 0.0)` (app.py lines 267-269). They are not channels:
LangGraph discards writes to keys that are not declared in the state
schema (see `applyWrites`), so in every state the graph itself produces
they are absent (`none`), proved in `final_scores_absent`. -/
structure GState where
  messages : List Msg
  thread_id : String
  crisis : Bool
  end_session : Bool
  need_summary : Bool
  summary : Option String
  search_result : Option (List (List (String × PyVal)))
  anxiety : Option Rat
  depression : Option Rat
  stress : Option Rat

/-- LangGraph's application of a node's returned dict to the channel
state: only the keys declared in the `State` TypedDict are channels, so
the writes to the undeclared `anxiety` / `depression` / `stress` keys are
silently dropped — the channel state never carries them. Every other key
of the returned dict is a declared channel and is written through. -/
def applyWrites (upd : GState) : GState :=
  { upd with anxiety := none, depression := none, stress := none }

/-- Router destinations returned by `route_after_evaluator`. -/
inductive Route where
  | to_search
  | to_finish
  | to_counselor
deriving DecidableEq, Repr

/-- Embedding of `route_after_evaluator(state)` (app.py lines 83-90). -/
def route_after_evaluator (state : GState) : Route :=
  if state.search_result.isSome then Route.to_finish
  else if state.crisis then Route.to_search
  else if state.end_session then Route.to_finish
  else Route.to_counselor

/-- Graph nodes (`counselor`, `evaluator`, `summarize`, `tools`). -/
inductive NodeId where
  | counselor
  | evaluator
  | summarize
  | tools
deriving DecidableEq, Repr

/-- The conditional-edges mapping registered on the `evaluator` node
(app.py lines 218-222): `to_search ↦ tools`, `to_finish ↦ summarize`,
`to_counselor ↦ END` (no further node this turn). -/
def routeTarget : Route → Option NodeId
  | Route.to_search => some NodeId.tools
  | Route.to_finish => some NodeId.summarize
  | Route.to_counselor => none

/-- A collaborator call failure (LLM error / timeout / tool error). -/
inductive CollabErr where
  | failure
  | timeout
deriving DecidableEq, Repr

/-- An error escaping a node (the source has no try/except at node level
except inside `search_node`): a propagated collaborator failure, a pydantic
validation error from `with_structured_output(EvalDecision)`, or the
LangGraph recursion-limit error. -/
inductive TurnErr where
  | collab (e : CollabErr)
  | validation
  | recursionLimit
deriving DecidableEq, Repr

/-- A raw numeric field of the evaluator's structured output before pydantic
validation: absent, a number, or a value pydantic cannot parse as a float. -/
inductive RawNum where
  | missing
  | num (q : Rat)
  | invalid
deriving DecidableEq, Repr

/-- A raw boolean field before pydantic validation. -/
inductive RawBool where
  | missing
  | val (b : Bool)
  | invalid
deriving DecidableEq, Repr

/-- The collaborator's raw structured-output payload for `EvalDecision`. -/
structure RawEvalPayload where
  crisis : RawBool
  end_session : RawBool
  need_summary : RawBool
  anxiety : RawNum
  depression : RawNum
  stress : RawNum
deriving DecidableEq, Repr

/-- The validated `EvalDecision` pydantic model (app.py lines 93-99). -/
structure EvalDecision where
  crisis : Bool
  end_session : Bool
  need_summary : Bool
  anxiety : Rat
  depression : Rat
  stress : Rat
deriving DecidableEq, Repr

/-- Pydantic validation of one float field declared
`Field(0.0, ge=0.0, le=100.0)`: a missing field takes the default `0.0`; an
out-of-range or unparseable value raises a `ValidationError` (pydantic
constraints reject, they do not clamp). -/
def validateNum : RawNum → Except Unit Rat
  | RawNum.missing => Except.ok 0
  | RawNum.num q => if 0 ≤ q ∧ q ≤ 100 then Except.ok q else Except.error ()
  | RawNum.invalid => Except.error ()

/-- Pydantic validation of one bool field declared `Field(False)`. -/
def validateBool : RawBool → Except Unit Bool
  | RawBool.missing => Except.ok false
  | RawBool.val b => Except.ok b
  | RawBool.invalid => Except.error ()

/-- Full pydantic validation of the `EvalDecision` payload: every field is
validated and any failure raises (the error payload is irrelevant, so the
fields are checked in declaration order). -/
def validateEvalDecision (p : RawEvalPayload) : Except Unit EvalDecision :=
  match validateBool p.crisis with
  | Except.error u => Except.error u
  | Except.ok c =>
    match validateBool p.end_session with
    | Except.error u => Except.error u
    | Except.ok e =>
      match validateBool p.need_summary with
      | Except.error u => Except.error u
      | Except.ok n =>
        match validateNum p.anxiety with
        | Except.error u => Except.error u
        | Except.ok a =>
          match validateNum p.depression with
          | Except.error u => Except.error u
          | Except.ok d =>
            match validateNum p.stress with
            | Except.error u => Except.error u
            | Except.ok s => Except.ok ⟨c, e, n, a, d, s⟩

/-- Embedding of `evaluator_node(state)` (app.py lines 101-121). The node
has no try/except: a collaborator failure or a pydantic `ValidationError`
from `decide.invoke(...)` propagates. On success it returns
`{**state, crisis, end_session, need_summary, anxiety, depression, stress}`. -/
def evaluator_node (resp : Except CollabErr RawEvalPayload)
    (state : GState) : Except TurnErr GState :=
  match resp with
  | Except.error e => Except.error (TurnErr.collab e)
  | Except.ok p =>
      match validateEvalDecision p with
      | Except.error _ => Except.error TurnErr.validation
      | Except.ok d =>
          Except.ok { state with
            crisis := d.crisis
            end_session := d.end_session
            need_summary := d.need_summary
            anxiety := some d.anxiety
            depression := some d.depression
            stress := some d.stress }

/-- Embedding of `counselor_node(state)` (app.py lines 124-131). No
try/except: a collaborator failure propagates. On success the reply message
is appended to `messages` (the `add_messages` reducer appends the one new
message returned in `state["messages"] + [out]`). -/
def counselor_node (resp : Except CollabErr Msg)
    (state : GState) : Except TurnErr GState :=
  match resp with
  | Except.error e => Except.error (TurnErr.collab e)
  | Except.ok out => Except.ok { state with messages := state.messages ++ [out] }

/-- Embedding of `summary_node(state)` (app.py lines 133-140). The LLM call
is unguarded; on success `summary := (out.content or "").strip()` and
`need_summary := False` are the only channels written (a partial LangGraph
update, merged into the unchanged remaining channels). -/
def summary_node (resp : Except CollabErr (Option String))
    (state : GState) : Except TurnErr GState :=
  match resp with
  | Except.error e => Except.error (TurnErr.collab e)
  | Except.ok content =>
      Except.ok { state with
        summary := some (pyStrip (content.getD ""))
        need_summary := false }

/-- Embedding of `search_node(state)` (app.py lines 197-203): the whole
collaborator call plus normalization sits inside try/except, so the node
never fails; it always sets `search_result` (possibly to `[]`). -/
def search_node (parse : String → Option PyVal)
    (resp : Except CollabErr PyVal) (state : GState) : GState :=
  let result :=
    match resp with
    | Except.error _ => []
    | Except.ok raw => normalize_search_result parse raw
  { state with search_result := some result }

/-- The external collaborators of one turn, as interfaces: the nth counselor
LLM reply, the nth evaluator structured output, the one search-agent payload
and the one summarizer reply. Each call may fail. -/
structure Collab where
  counsel : Nat → Except CollabErr Msg
  evalOut : Nat → Except CollabErr RawEvalPayload
  searchOut : Except CollabErr PyVal
  summarOut : Except CollabErr (Option String)

/-- A point of the per-turn state machine: the node about to run (`none` =
the graph reached END), the graph state, and how many counselor / evaluator
calls have happened this turn (indexing into the oracle). -/
structure Machine where
  node : Option NodeId
  state : GState
  nCounsel : Nat
  nEval : Nat

/-- One superstep of the compiled graph (the node executes, LangGraph
applies the returned dict to the declared channels — `applyWrites`, which
drops the undeclared score keys — then the fixed edge or the conditional
`route_after_evaluator` edge, evaluated on the updated channel state,
picks the next node; app.py lines 209-226). -/
def stepM (c : Collab) (parse : String → Option PyVal)
    (m : Machine) : Except TurnErr Machine :=
  match m.node with
  | none => Except.ok m
  | some NodeId.counselor =>
      (counselor_node (c.counsel m.nCounsel) m.state).map fun s =>
        ⟨some NodeId.evaluator, applyWrites s, m.nCounsel + 1, m.nEval⟩
  | some NodeId.evaluator =>
      (evaluator_node (c.evalOut m.nEval) m.state).map fun s =>
        ⟨routeTarget (route_after_evaluator (applyWrites s)), applyWrites s,
          m.nCounsel, m.nEval + 1⟩
  | some NodeId.tools =>
      Except.ok ⟨some NodeId.counselor,
        applyWrites (search_node parse c.searchOut m.state),
        m.nCounsel, m.nEval⟩
  | some NodeId.summarize =>
      (summary_node c.summarOut m.state).map fun s =>
        ⟨none, applyWrites s, m.nCounsel, m.nEval⟩

/-- Run the graph for at most `fuel` supersteps, recording the sequence of
node executions; running out of fuel with a node still pending is LangGraph's
`GraphRecursionError` (`recursion_limit` in the `RunnableConfig`). -/
def runTrace (c : Collab) (parse : String → Option PyVal) :
    Nat → Machine → Except TurnErr (GState × List NodeId)
  | 0, m =>
      match m.node with
      | none => Except.ok (m.state, [])
      | some _ => Except.error TurnErr.recursionLimit
  | fuel + 1, m =>
      match m.node with
      | none => Except.ok (m.state, [])
      | some n =>
          match stepM c parse m with
          | Except.error e => Except.error e
          | Except.ok m2 =>
              match runTrace c parse fuel m2 with
              | Except.error e => Except.error e
              | Except.ok (s, tr) => Except.ok (s, n :: tr)

/-- The per-turn recursion limit set in `_invoke_hermes`
(`RunnableConfig(recursion_limit=20, ...)`, app.py line 248). -/
def recursion_limit : Nat := 20

/-- Embedding of `graph.invoke(input=input_state, config=config)` for one
turn: the `START → counselor` edge enters at the counselor node and the run
is bounded by the recursion limit of 20. -/
def graphInvoke (c : Collab) (parse : String → Option PyVal)
    (s0 : GState) : Except TurnErr (GState × List NodeId) :=
  runTrace c parse recursion_limit ⟨some NodeId.counselor, s0, 0, 0⟩

/-- The initial turn state built in `_invoke_hermes` (app.py lines 246-247):
one user message, flags false, no summary / search result / scores yet (for
a fresh thread every unset LangGraph channel starts at its default). -/
def build_turn_state (user_text thread_id : String) : GState :=
  { messages := [⟨Role.user, user_text⟩]
    thread_id := thread_id
    crisis := false
    end_session := false
    need_summary := false
    summary := none
    search_result := none
    anxiety := none
    depression := none
    stress := none }

/-- One sample of a session's score history
(`{"ts": dt, "anxiety": .., "depression": .., "stress": ..}`); timestamps
are UTC epoch seconds. -/
structure HistEntry where
  ts : Int
  anxiety : Rat
  depression : Rat
  stress : Rat
deriving DecidableEq, Repr

/-- One record of `session_stats` (app.py lines 234-243). -/
structure SessionRecord where
  crisis_cnt : Nat
  last_summary : String
  updated : Option Int
  hist : List HistEntry
deriving DecidableEq, Repr

/-- The record `session_stats.setdefault(thread_id, {...})` creates for a
session seen for the first time. -/
def freshRecord : SessionRecord :=
  { crisis_cnt := 0, last_summary := "", updated := none, hist := [] }

/-- Clamp a score into [0, 100] (`max(0.0, min(100.0, x))`). -/
def clamp100 (q : Rat) : Rat := max 0 (min 100 q)

/-- The session-statistics fold of `_invoke_hermes` (app.py lines 256-276):
create the record if absent, bump `crisis_cnt` when the final state says
crisis, overwrite `last_summary` when the final summary is truthy (present
and non-empty), append one clamped zero-filled history sample, stamp
`updated`. -/
def recordTurn (prev : Option SessionRecord) (final : GState)
    (now : Int) : SessionRecord :=
  let st := prev.getD freshRecord
  let st :=
    if final.crisis then { st with crisis_cnt := st.crisis_cnt + 1 } else st
  let st :=
    match final.summary with
    | some t => if t ≠ "" then { st with last_summary := t } else st
    | none => st
  let anx := final.anxiety.getD 0
  let dep := final.depression.getD 0
  let strr := final.stress.getD 0
  { st with
    hist := st.hist ++
      [⟨now, clamp100 anx, clamp100 dep, clamp100 strr⟩]
    updated := some now }

/-- The JSON body `_invoke_hermes` returns to `api_chat`. -/
structure ChatResp where
  reply : String
  crisis : Bool
  end_session : Bool
  need_summary : Bool
  search_result : List (List (String × PyVal))

/-- The fallback reply text used when extracting the last message's content
raises (app.py line 255). -/
def fallback_reply : String := "죄송합니다. 일시적 오류가 발생했어요."

/-- The part of `_invoke_hermes` after the graph call (app.py lines
251-289), as a function of the graph-invocation outcome: an error outcome
propagates unchanged (there is no try/except around `graph.invoke`; the only
guarded step is extracting the last reply text). On success it folds the
turn into the session record and builds the response. -/
def invoke_hermes_post (parse : String → Option PyVal)
    (ginv : Except TurnErr (GState × List NodeId))
    (prev : Option SessionRecord) (now : Int) :
    Except TurnErr (ChatResp × SessionRecord) :=
  match ginv with
  | Except.error e => Except.error e
  | Except.ok (final, _) =>
      let reply :=
        match final.messages.getLast? with
        | some m => m.content
        | none => fallback_reply
      let st := recordTurn prev final now
      let safe_search :=
        normalize_search_result parse
          (match final.search_result with
           | none => PyVal.vNone
           | some l => PyVal.vList (l.map PyVal.vDict))
      Except.ok
        ({ reply := reply
           crisis := final.crisis
           end_session := final.end_session
           need_summary := final.need_summary
           search_result := safe_search }, st)

/-- Embedding of `_invoke_hermes(user_text, thread_id)` for a fresh thread:
run the graph on the initial turn state, then the post-processing fold. -/
def invoke_hermes (c : Collab) (parse : String → Option PyVal)
    (prev : Option SessionRecord) (now : Int)
    (user_text thread_id : String) :
    Except TurnErr (ChatResp × SessionRecord) :=
  invoke_hermes_post parse
    (graphInvoke c parse (build_turn_state user_text thread_id)) prev now

/-- Python string truthiness composed with `or` then `.strip()`, as in
`(data.get("thread_id") or str(uuid.uuid4())).strip()` (app.py line 295):
the fallback is taken only when the field is absent, `None`, or exactly the
empty string; otherwise the given value itself is stripped. -/
def resolve_thread_id (raw : Option String) (fresh_uuid : String) : String :=
  pyStrip
    (match raw with
     | none => fresh_uuid
     | some s => if s = "" then fresh_uuid else s)

/-- Python `(data.get("message") or "").strip()` (app.py line 294); the
request is rejected with status 400 when this is empty. -/
def resolve_message (raw : Option String) : String :=
  pyStrip
    (match raw with
     | none => ""
     | some s => s)

/-- The window bound `now - timedelta(days=7)` of `api_dashboard`
(app.py line 310), in seconds. -/
def seven_days_ago (now : Int) : Int := now - 7 * 86400

/-- The filtered sample set `all_hist` of `api_dashboard` (app.py lines
312-318): every history sample of every session whose timestamp is at least
`now - 7 days` (a datetime is always truthy, so the `if ts` guard only
excludes absent timestamps, which cannot occur — `recordTurn` always writes
one). Every average, weekly bucket and count is computed from this list. -/
def all_hist (sessions : List SessionRecord) (now : Int) : List HistEntry :=
  sessions.flatMap fun st =>
    st.hist.filter fun h => decide (seven_days_ago now ≤ h.ts)

/-- The per-metric mean `avg(key)` over the filtered samples (`0.0` when the
set is empty). -/
def dash_avg (l : List HistEntry) (f : HistEntry → Rat) : Rat :=
  if l.isEmpty then 0 else (l.map f).sum / l.length

/-- UTC calendar day of an epoch-seconds timestamp (`.date()` comparison in
the weekly loop), as a floor-division day number. -/
def dateOf (ts : Int) : Int := Int.fdiv ts 86400

/-- The samples of one weekly bucket: `[h for h in all_hist if
h["ts"].date() == day_dt]` (app.py line 334). -/
def day_hist (filtered : List HistEntry) (day_dt : Int) : List HistEntry :=
  filtered.filter fun h => decide (dateOf h.ts = day_dt)

/-- The evaluator judgement of the spec's crisis test scenario:
crisis with anxiety 80, every other field left to its default. -/
def crisisEval : RawEvalPayload :=
  { crisis := RawBool.val true
    end_session := RawBool.missing
    need_summary := RawBool.missing
    anxiety := RawNum.num 80
    depression := RawNum.missing
    stress := RawNum.missing }

/-- The one institution record the mocked search agent returns. -/
def mockRecord : List (String × PyVal) :=
  [("기관명", PyVal.vStr "서울심리지원센터"),
   ("주소", PyVal.vStr "서울특별시 중구"),
   ("연락처", PyVal.vStr "02-123-4567"),
   ("source_url", PyVal.vStr "https://example.org/center"),
   ("source_title", PyVal.vStr "기관 안내")]

/-- The counselor reply text of the mocked collaborator. -/
def mockReply : String := "지금 상태를 함께 살펴보고 전문기관 연계를 도울게요."

/-- The summary text of the mocked collaborator. -/
def mockSummary : String := "주요 증상: 불안"

/-- Mocked collaborator oracle for the spec's crisis scenario: every
evaluator call returns `crisisEval`, the search agent returns one record,
counselor and summarizer succeed with fixed text. -/
def mockCollab : Collab :=
  { counsel := fun _ => Except.ok ⟨Role.assistant, mockReply⟩
    evalOut := fun _ => Except.ok crisisEval
    searchOut := Except.ok (PyVal.vList [PyVal.vDict mockRecord])
    summarOut := Except.ok (some mockSummary) }

/-- A concrete stand-in for `json.loads` (never consulted by the mocked
scenario, whose search payload is already structured). -/
def mockParse : String → Option PyVal := fun _ => none

/-- Running out the trace from a machine that already reached END returns
the state unchanged, whatever fuel is left. -/
theorem runTrace_end (c : Collab) (parse : String → Option PyVal)
    (fuel : Nat) (s : GState) (i j : Nat) :
    runTrace c parse fuel ⟨none, s, i, j⟩ = Except.ok (s, []) := by
  cases fuel <;> rfl

/-- After any superstep, the machine's channel state lacks the undeclared
score keys — `applyWrites` has dropped them whatever the node returned. -/
theorem stepM_scores (c : Collab) (parse : String → Option PyVal)
    (m m2 : Machine) (nd : NodeId) (hn : m.node = some nd)
    (h : stepM c parse m = Except.ok m2) :
    m2.state.anxiety = none ∧ m2.state.depression = none ∧
      m2.state.stress = none := by
  cases nd
  · rcases hc : counselor_node (c.counsel m.nCounsel) m.state with e | s <;>
      simp [stepM, hn, hc, Except.map] at h
    subst h
    exact ⟨rfl, rfl, rfl⟩
  · rcases hc : evaluator_node (c.evalOut m.nEval) m.state with e | s <;>
      simp [stepM, hn, hc, Except.map] at h
    subst h
    exact ⟨rfl, rfl, rfl⟩
  · rcases hc : summary_node c.summarOut m.state with e | s <;>
      simp [stepM, hn, hc, Except.map] at h
    subst h
    exact ⟨rfl, rfl, rfl⟩
  · simp [stepM, hn, Except.map] at h
    subst h
    exact ⟨rfl, rfl, rfl⟩

/-- Because the score keys are not channels of the `State` TypedDict, they
can never reach a final state: any run from a machine whose channel state
lacks them (as `build_turn_state` does) ends in a state that lacks them —
so `final.get("anxiety", 0.0)` in `_invoke_hermes` always reads 0.0. -/
theorem final_scores_absent (c : Collab) (parse : String → Option PyVal) :
    ∀ (fuel : Nat) (m : Machine) (st : GState) (tr : List NodeId),
      m.state.anxiety = none → m.state.depression = none →
      m.state.stress = none →
      runTrace c parse fuel m = Except.ok (st, tr) →
      st.anxiety = none ∧ st.depression = none ∧ st.stress = none := by
  intro fuel
  induction fuel with
  | zero =>
      intro m st tr h1 h2 h3 h
      rcases hn : m.node with _ | nd <;> simp [runTrace, hn] at h
      obtain ⟨h4, h5⟩ := h
      subst h4
      exact ⟨h1, h2, h3⟩
  | succ n ih =>
      intro m st tr h1 h2 h3 h
      rcases hn : m.node with _ | nd
      · simp [runTrace, hn] at h
        obtain ⟨h4, h5⟩ := h
        subst h4
        exact ⟨h1, h2, h3⟩
      · rcases hs : stepM c parse m with e | m2
        · simp [runTrace, hn, hs] at h
        · rcases hr : runTrace c parse n m2 with e2 | pr
          · simp [runTrace, hn, hs, hr] at h
          · rcases pr with ⟨s2, tr2⟩
            simp [runTrace, hn, hs, hr] at h
            obtain ⟨h4, h5⟩ := h
            obtain ⟨k1, k2, k3⟩ := stepM_scores c parse m m2 nd hn hs
            have hfin := ih m2 s2 tr2 k1 k2 k3 hr
            exact h4 ▸ hfin

set_option maxHeartbeats 3200000 in
/-- Any successful turn of the compiled graph executes one of exactly three
node sequences: counselor-evaluator (the common continue-chatting stop),
counselor-evaluator-summarize (end of session or a search result carried in
the initial state), or the single crisis loop
counselor-evaluator-tools-counselor-evaluator-summarize. -/
theorem graphInvoke_cases (c : Collab) (parse : String → Option PyVal)
    (s0 : GState) (st : GState) (tr : List NodeId)
    (h : graphInvoke c parse s0 = Except.ok (st, tr)) :
    tr = [NodeId.counselor, NodeId.evaluator] ∨
    tr = [NodeId.counselor, NodeId.evaluator, NodeId.summarize] ∨
    tr = [NodeId.counselor, NodeId.evaluator, NodeId.tools,
      NodeId.counselor, NodeId.evaluator, NodeId.summarize] := by
  unfold graphInvoke recursion_limit at h
  rcases h1 : c.counsel 0 with e1 | m1
  · simp [runTrace, stepM, Except.map, applyWrites, counselor_node, h1] at h
  rcases h2 : c.evalOut 0 with e2 | p1
  · simp [runTrace, stepM, Except.map, applyWrites, counselor_node, evaluator_node, h1, h2] at h
  rcases h3 : validateEvalDecision p1 with u | d1
  · simp [runTrace, stepM, Except.map, applyWrites, counselor_node, evaluator_node, h1, h2, h3] at h
  rcases hsr : s0.search_result with _ | l
  · cases hcr : d1.crisis
    · cases hes : d1.end_session
      · simp [runTrace, stepM, Except.map, applyWrites, counselor_node, evaluator_node,
          route_after_evaluator, routeTarget, h1, h2, h3, hsr, hcr, hes] at h
        exact Or.inl h.2.symm
      · rcases h4 : c.summarOut with e4 | cnt
        · simp [runTrace, stepM, Except.map, applyWrites, counselor_node, evaluator_node, summary_node,
            route_after_evaluator, routeTarget, h1, h2, h3, hsr, hcr, hes,
            h4] at h
        · simp [runTrace, stepM, Except.map, applyWrites, counselor_node, evaluator_node, summary_node,
            route_after_evaluator, routeTarget, h1, h2, h3, hsr, hcr, hes,
            h4] at h
          exact Or.inr (Or.inl h.2.symm)
    · rcases h5 : c.counsel 1 with e5 | m2
      · simp [runTrace, stepM, Except.map, applyWrites, counselor_node, evaluator_node, search_node,
          route_after_evaluator, routeTarget, h1, h2, h3, hsr, hcr, h5] at h
      rcases h6 : c.evalOut 1 with e6 | p2
      · simp [runTrace, stepM, Except.map, applyWrites, counselor_node, evaluator_node, search_node,
          route_after_evaluator, routeTarget, h1, h2, h3, hsr, hcr, h5,
          h6] at h
      rcases h7 : validateEvalDecision p2 with u2 | d2
      · simp [runTrace, stepM, Except.map, applyWrites, counselor_node, evaluator_node, search_node,
          route_after_evaluator, routeTarget, h1, h2, h3, hsr, hcr, h5, h6,
          h7] at h
      rcases h8 : c.summarOut with e8 | cnt
      · simp [runTrace, stepM, Except.map, applyWrites, counselor_node, evaluator_node, search_node,
          summary_node, route_after_evaluator, routeTarget, h1, h2, h3, hsr,
          hcr, h5, h6, h7, h8] at h
      · simp [runTrace, stepM, Except.map, applyWrites, counselor_node, evaluator_node, search_node,
          summary_node, route_after_evaluator, routeTarget, h1, h2, h3, hsr,
          hcr, h5, h6, h7, h8] at h
        exact Or.inr (Or.inr h.2.symm)
  · rcases h4 : c.summarOut with e4 | cnt
    · simp [runTrace, stepM, Except.map, applyWrites, counselor_node, evaluator_node, summary_node,
        route_after_evaluator, routeTarget, h1, h2, h3, hsr, h4] at h
    · simp [runTrace, stepM, Except.map, applyWrites, counselor_node, evaluator_node, summary_node,
        route_after_evaluator, routeTarget, h1, h2, h3, hsr, h4] at h
      exact Or.inr (Or.inl h.2.symm)

set_option maxHeartbeats 3200000 in
/-- The per-turn graph run always terminates strictly inside the recursion
limit of 20: a turn can execute at most six supersteps (one crisis loop),
so LangGraph's recursion-limit error is unreachable whatever the
collaborators do. -/
theorem graphInvoke_no_recursionLimit (c : Collab)
    (parse : String → Option PyVal) (s0 : GState) :
    graphInvoke c parse s0 ≠ Except.error TurnErr.recursionLimit := by
  intro h
  unfold graphInvoke recursion_limit at h
  rcases h1 : c.counsel 0 with e1 | m1
  · simp [runTrace, stepM, Except.map, applyWrites, counselor_node, h1] at h
  rcases h2 : c.evalOut 0 with e2 | p1
  · simp [runTrace, stepM, Except.map, applyWrites, counselor_node, evaluator_node, h1, h2] at h
  rcases h3 : validateEvalDecision p1 with u | d1
  · simp [runTrace, stepM, Except.map, applyWrites, counselor_node, evaluator_node, h1, h2, h3] at h
  rcases hsr : s0.search_result with _ | l
  · cases hcr : d1.crisis
    · cases hes : d1.end_session
      · simp [runTrace, stepM, Except.map, applyWrites, counselor_node, evaluator_node,
          route_after_evaluator, routeTarget, h1, h2, h3, hsr, hcr, hes] at h
      · rcases h4 : c.summarOut with e4 | cnt <;>
          simp [runTrace, stepM, Except.map, applyWrites, counselor_node, evaluator_node,
            summary_node, route_after_evaluator, routeTarget, h1, h2, h3,
            hsr, hcr, hes, h4] at h
    · rcases h5 : c.counsel 1 with e5 | m2
      · simp [runTrace, stepM, Except.map, applyWrites, counselor_node, evaluator_node,
          search_node, route_after_evaluator, routeTarget, h1, h2, h3, hsr,
          hcr, h5] at h
      rcases h6 : c.evalOut 1 with e6 | p2
      · simp [runTrace, stepM, Except.map, applyWrites, counselor_node, evaluator_node,
          search_node, route_after_evaluator, routeTarget, h1, h2, h3, hsr,
          hcr, h5, h6] at h
      rcases h7 : validateEvalDecision p2 with u2 | d2
      · simp [runTrace, stepM, Except.map, applyWrites, counselor_node, evaluator_node,
          search_node, route_after_evaluator, routeTarget, h1, h2, h3, hsr,
          hcr, h5, h6, h7] at h
      rcases h8 : c.summarOut with e8 | cnt <;>
        simp [runTrace, stepM, Except.map, applyWrites, counselor_node, evaluator_node,
          search_node, summary_node, route_after_evaluator, routeTarget,
          h1, h2, h3, hsr, hcr, h5, h6, h7, h8] at h
  · rcases h4 : c.summarOut with e4 | cnt <;>
      simp [runTrace, stepM, Except.map, applyWrites, counselor_node, evaluator_node,
        summary_node, route_after_evaluator, routeTarget, h1, h2, h3, hsr,
        h4] at h

/-- C1: after Evaluate completes, the Router's choice follows the priority
order of the source `route_after_evaluator`: a present `search_result`
(even an empty list) selects Summarize; otherwise crisis selects Search;
otherwise `end_session` selects Summarize; otherwise the turn stops — the
conditional edge maps `to_counselor` to END, so no further node runs. -/
theorem router_priority (s : GState) :
    (s.search_result.isSome = true → route_after_evaluator s = Route.to_finish) ∧
    (s.search_result = none → s.crisis = true →
      route_after_evaluator s = Route.to_search) ∧
    (s.search_result = none → s.crisis = false → s.end_session = true →
      route_after_evaluator s = Route.to_finish) ∧
    (s.search_result = none → s.crisis = false → s.end_session = false →
      route_after_evaluator s = Route.to_counselor ∧
        routeTarget (route_after_evaluator s) = none) := by
  refine ⟨?_, ?_, ?_, ?_⟩ <;> intros <;>
    simp_all [route_after_evaluator, routeTarget]

/-- Witness for C1: the router applied to a state with an empty-but-present
search result selects Summarize, and to the fresh turn state stops the
turn. -/
theorem router_priority_witness :
    route_after_evaluator
      { build_turn_state "안녕하세요" "s1" with search_result := some [] } =
        Route.to_finish ∧
    route_after_evaluator (build_turn_state "안녕하세요" "s1") =
      Route.to_counselor :=
  ⟨(router_priority _).1 rfl, ((router_priority _).2.2.2 rfl rfl rfl).1⟩

/-- C2: the Search node always sets `search_result` (to a possibly empty
list); once it is set, the very next Router evaluation — after control
flows back through Counsel and Evaluate, which both preserve
`search_result` — selects Summarize; and consequently no successful turn
of the compiled graph ever executes the `tools` node twice. -/
theorem search_runs_once (c : Collab) (parse : String → Option PyVal) :
    (∀ resp s, ((search_node parse resp s).search_result).isSome = true) ∧
    (∀ s s1 s2 mresp eresp, s.search_result.isSome = true →
      counselor_node mresp s = Except.ok s1 →
      evaluator_node eresp s1 = Except.ok s2 →
      route_after_evaluator s2 = Route.to_finish) ∧
    (∀ s0 st tr, graphInvoke c parse s0 = Except.ok (st, tr) →
      List.count NodeId.tools tr ≤ 1) := by
  refine ⟨fun resp s => rfl, ?_, ?_⟩
  · intro s s1 s2 mresp eresp hsr hc he
    rcases mresp with e | m
    · simp [counselor_node] at hc
    rcases eresp with e | p
    · simp [evaluator_node] at he
    rcases hv : validateEvalDecision p with u | d
    · simp [evaluator_node, hv] at he
    simp [counselor_node] at hc
    simp [evaluator_node, hv] at he
    subst hc
    subst he
    simp_all [route_after_evaluator]
  · intro s0 st tr h
    rcases graphInvoke_cases c parse s0 st tr h with h' | h' | h' <;>
      subst h' <;> decide

/-- Witness for C2: the Search node run on a failing collaborator still
sets `search_result`, and the concrete crisis-scenario turn (which does
route through Search) executes the `tools` node exactly once. -/
theorem search_runs_once_witness :
    ((search_node mockParse (Except.error CollabErr.failure)
      (build_turn_state "안녕" "s2")).search_result).isSome = true ∧
    List.count NodeId.tools
      [NodeId.counselor, NodeId.evaluator, NodeId.tools, NodeId.counselor,
        NodeId.evaluator, NodeId.summarize] ≤ 1 :=
  ⟨(search_runs_once mockCollab mockParse).1 _ _,
   (search_runs_once mockCollab mockParse).2.2
     (build_turn_state "요즘 너무 힘들어요" "s1") _ _ rfl⟩

/-- C3 counterexample: a collaborator response whose anxiety is the
out-of-range number -5 is not coerced to 0 — the pydantic `ge`/`le`
constraints reject it, `decide.invoke` raises, and the unguarded
`evaluator_node` fails the turn with a validation error. -/
theorem evaluator_out_of_range_fails :
    evaluator_node
      (Except.ok
        { crisis := RawBool.missing, end_session := RawBool.missing,
          need_summary := RawBool.missing, anxiety := RawNum.num (-5),
          depression := RawNum.missing, stress := RawNum.missing })
      (build_turn_state "안녕하세요" "s1") = Except.error TurnErr.validation := rfl

/-- Bounds of a validated float field: whenever pydantic accepts a value
for a `Field(0.0, ge=0.0, le=100.0)` declaration, it lies in [0, 100]. -/
theorem validateNum_bounds (x : RawNum) (q : Rat)
    (h : validateNum x = Except.ok q) : 0 ≤ q ∧ q ≤ 100 := by
  rcases x with _ | q' | _
  · simp only [validateNum, Except.ok.injEq] at h
    subst h
    norm_num
  · simp only [validateNum] at h
    split at h
    · rename_i hc
      injection h with h2
      subst h2
      exact hc
    · cases h
  · simp [validateNum] at h

/-- C3 amended: the Evaluate node defaults missing fields (numerics to 0,
booleans to false) and any value it accepts is in range — but an
out-of-range or non-numeric anxiety field is rejected by the pydantic
constraints rather than coerced, and the resulting validation error
propagates out of the unguarded node, failing the turn. When validation
succeeds, the node succeeds and writes scores that lie in [0, 100]. -/
theorem evaluator_validation (p : RawEvalPayload) (s : GState) :
    (validateEvalDecision
      { crisis := RawBool.missing, end_session := RawBool.missing,
        need_summary := RawBool.missing, anxiety := RawNum.missing,
        depression := RawNum.missing, stress := RawNum.missing } =
      Except.ok ⟨false, false, false, 0, 0, 0⟩) ∧
    (∀ q, p.anxiety = RawNum.num q → (q < 0 ∨ 100 < q) →
      evaluator_node (Except.ok p) s = Except.error TurnErr.validation) ∧
    (p.anxiety = RawNum.invalid →
      evaluator_node (Except.ok p) s = Except.error TurnErr.validation) ∧
    (∀ d, validateEvalDecision p = Except.ok d →
      evaluator_node (Except.ok p) s =
        Except.ok { s with
          crisis := d.crisis, end_session := d.end_session,
          need_summary := d.need_summary, anxiety := some d.anxiety,
          depression := some d.depression, stress := some d.stress } ∧
      (0 ≤ d.anxiety ∧ d.anxiety ≤ 100) ∧
      (0 ≤ d.depression ∧ d.depression ≤ 100) ∧
      (0 ≤ d.stress ∧ d.stress ≤ 100)) := by
  have key : validateNum p.anxiety = Except.error () →
      evaluator_node (Except.ok p) s = Except.error TurnErr.validation := by
    intro hnum
    have hval : validateEvalDecision p = Except.error () := by
      unfold validateEvalDecision
      rcases hb1 : validateBool p.crisis with ⟨⟩ | b1 <;>
        rcases hb2 : validateBool p.end_session with ⟨⟩ | b2 <;>
        rcases hb3 : validateBool p.need_summary with ⟨⟩ | b3 <;>
        simp [hb1, hb2, hb3, hnum]
    simp [evaluator_node, hval]
  refine ⟨rfl, ?_, ?_, ?_⟩
  · intro q hq hrange
    apply key
    rw [hq]
    simp only [validateNum, ite_eq_right_iff]
    intro ⟨h1, h2⟩
    rcases hrange with h | h
    · exact absurd h1 (not_le.mpr h)
    · exact absurd h2 (not_le.mpr h)
  · intro hinv
    apply key
    rw [hinv]
    rfl
  · intro d hd
    refine ⟨by simp [evaluator_node, hd], ?_⟩
    unfold validateEvalDecision at hd
    rcases hb1 : validateBool p.crisis with ⟨⟩ | b1 <;> rw [hb1] at hd <;>
      simp at hd
    rcases hb2 : validateBool p.end_session with ⟨⟩ | b2 <;> rw [hb2] at hd <;>
      simp at hd
    rcases hb3 : validateBool p.need_summary with ⟨⟩ | b3 <;> rw [hb3] at hd <;>
      simp at hd
    rcases hn1 : validateNum p.anxiety with ⟨⟩ | a <;> rw [hn1] at hd <;>
      simp at hd
    rcases hn2 : validateNum p.depression with ⟨⟩ | b <;> rw [hn2] at hd <;>
      simp at hd
    rcases hn3 : validateNum p.stress with ⟨⟩ | e <;> rw [hn3] at hd <;>
      simp at hd
    have h1 := validateNum_bounds _ _ hn1
    have h2 := validateNum_bounds _ _ hn2
    have h3 := validateNum_bounds _ _ hn3
    rw [← hd]
    exact ⟨h1, h2, h3⟩

/-- Witness for C3 (amended): an anxiety of 150 fails the turn with a
validation error, while the all-defaults payload succeeds with in-range
zero scores. -/
theorem evaluator_validation_witness :
    evaluator_node
      (Except.ok
        { crisis := RawBool.val true, end_session := RawBool.missing,
          need_summary := RawBool.missing, anxiety := RawNum.num 150,
          depression := RawNum.missing, stress := RawNum.missing })
      (build_turn_state "요즘 어때요" "s3") = Except.error TurnErr.validation ∧
    (0 ≤ (0 : Rat) ∧ (0 : Rat) ≤ 100) :=
  ⟨(evaluator_validation _ _).2.1 150 rfl (Or.inr (by norm_num)),
   ((evaluator_validation
      { crisis := RawBool.missing, end_session := RawBool.missing,
        need_summary := RawBool.missing, anxiety := RawNum.missing,
        depression := RawNum.missing, stress := RawNum.missing }
      (build_turn_state "요즘 어때요" "s3")).2.2.2
      ⟨false, false, false, 0, 0, 0⟩ rfl).2.1⟩

/-- C4 counterexample: a failing counselor collaborator is not replaced by
a fallback assistant message — `counselor_node` has no try/except, so the
failure propagates to the caller. -/
theorem counselor_failure_propagates :
    counselor_node (Except.error CollabErr.timeout)
      (build_turn_state "안녕하세요" "s1") =
      Except.error (TurnErr.collab CollabErr.timeout) := rfl

/-- C4 amended: on collaborator success the Counsel node appends exactly
the one generated assistant message; on collaborator failure (or timeout)
the failure propagates to the caller — the node has no fallback path. -/
theorem counselor_behavior (resp : Except CollabErr Msg) (s : GState) :
    (∀ m, resp = Except.ok m →
      counselor_node resp s = Except.ok { s with messages := s.messages ++ [m] }) ∧
    (∀ e, resp = Except.error e →
      counselor_node resp s = Except.error (TurnErr.collab e)) := by
  constructor
  · intro m hm
    subst hm
    rfl
  · intro e he
    subst he
    rfl

/-- Witness for C4 (amended): a concrete successful reply is appended; a
concrete timeout propagates. -/
theorem counselor_behavior_witness :
    counselor_node (Except.ok ⟨Role.assistant, mockReply⟩)
      (build_turn_state "안녕" "s4") =
      Except.ok { build_turn_state "안녕" "s4" with
        messages := (build_turn_state "안녕" "s4").messages ++
          [⟨Role.assistant, mockReply⟩] } ∧
    counselor_node (Except.error CollabErr.failure)
      (build_turn_state "안녕" "s4") =
      Except.error (TurnErr.collab CollabErr.failure) :=
  ⟨(counselor_behavior _ _).1 _ rfl, (counselor_behavior _ _).2 _ rfl⟩

/-- C5 counterexample: when the graph invocation signals that the step
ceiling was exceeded, `_invoke_hermes` propagates it — the only try/except
after the invocation guards extracting the reply text, so the recursion
error surfaces to the HTTP caller instead of a fallback Turn State. -/
theorem recursion_error_propagates :
    invoke_hermes_post mockParse (Except.error TurnErr.recursionLimit) none 0 =
      Except.error TurnErr.recursionLimit := rfl

/-- C5 amended: the orchestrator does bound each turn by the fixed
recursion limit of 20, and in this graph the bound is slack — every
successful turn takes at most 6 supersteps and a recursion-limit error is
unreachable; but there is no degrade path for it: any error outcome of the
graph invocation (the recursion-limit error included) propagates through
`_invoke_hermes` to the HTTP caller instead of yielding a best-effort
Turn State. -/
theorem step_budget (c : Collab) (parse : String → Option PyVal)
    (s0 : GState) :
    recursion_limit = 20 ∧
    graphInvoke c parse s0 ≠ Except.error TurnErr.recursionLimit ∧
    (∀ st tr, graphInvoke c parse s0 = Except.ok (st, tr) →
      tr.length ≤ recursion_limit) ∧
    (∀ e prev now, invoke_hermes_post parse (Except.error e) prev now =
      Except.error e) := by
  refine ⟨rfl, graphInvoke_no_recursionLimit c parse s0, ?_,
    fun e prev now => rfl⟩
  intro st tr h
  rcases graphInvoke_cases c parse s0 st tr h with h' | h' | h' <;>
    subst h' <;> decide

/-- Witness for C5 (amended): a concrete graph error propagates through the
post-invocation handling, and the concrete crisis-scenario trace is inside
the ceiling. -/
theorem step_budget_witness :
    invoke_hermes_post mockParse
      (Except.error (TurnErr.collab CollabErr.failure)) none 0 =
      Except.error (TurnErr.collab CollabErr.failure) ∧
    List.length [NodeId.counselor, NodeId.evaluator, NodeId.tools,
      NodeId.counselor, NodeId.evaluator, NodeId.summarize] ≤
      recursion_limit :=
  ⟨(step_budget mockCollab mockParse
      (build_turn_state "요즘 너무 힘들어요" "s1")).2.2.2 _ none 0,
   (step_budget mockCollab mockParse
      (build_turn_state "요즘 너무 힘들어요" "s1")).2.2.1 _ _ rfl⟩

/-- C6: the search-result normalization is a total function (it is a Lean
function, and the source wraps its one fallible call, `json.loads`, in
try/except): `None`, booleans, numbers, unparseable strings, strings or
`content` attributes whose JSON is not a list, and objects without a string
`content` all normalize to the empty sequence; and the Search node sets
`search_result` for every collaborator outcome — to the normalized payload
on success and to the empty sequence on failure. -/
theorem normalize_total (parse : String → Option PyVal) :
    (normalize_search_result parse PyVal.vNone = []) ∧
    (∀ b, normalize_search_result parse (PyVal.vBool b) = []) ∧
    (∀ n, normalize_search_result parse (PyVal.vInt n) = []) ∧
    (∀ q, normalize_search_result parse (PyVal.vFloat q) = []) ∧
    (∀ s, parse s = none → normalize_search_result parse (PyVal.vStr s) = []) ∧
    (∀ s v, parse s = some v → (∀ items, v ≠ PyVal.vList items) →
      normalize_search_result parse (PyVal.vStr s) = []) ∧
    (∀ cv, (∀ s, cv ≠ PyVal.vStr s) →
      normalize_search_result parse (PyVal.vObj cv) = []) ∧
    (∀ s, parse s = none →
      normalize_search_result parse (PyVal.vObj (PyVal.vStr s)) = []) ∧
    (∀ s v, parse s = some v → (∀ items, v ≠ PyVal.vList items) →
      normalize_search_result parse (PyVal.vObj (PyVal.vStr s)) = []) ∧
    (∀ e s, (search_node parse (Except.error e) s).search_result = some []) ∧
    (∀ raw s, (search_node parse (Except.ok raw) s).search_result =
      some (normalize_search_result parse raw)) := by
  refine ⟨rfl, fun b => rfl, fun n => rfl, fun q => rfl, ?_, ?_, ?_, ?_, ?_,
    fun e s => rfl, fun raw s => rfl⟩
  · intro s hp
    simp [normalize_search_result, hp]
  · intro s v hp hv
    cases v <;>
      first
        | exact absurd rfl (hv _)
        | simp [normalize_search_result, hp]
  · intro cv hcv
    cases cv <;> first | exact absurd rfl (hcv _) | rfl
  · intro s hp
    simp [normalize_search_result, hp]
  · intro s v hp hv
    cases v <;>
      first
        | exact absurd rfl (hv _)
        | simp [normalize_search_result, hp]

/-- Witness for C6: an unparseable string and a failing collaborator both
produce the empty sequence, yet `search_result` is set. -/
theorem normalize_total_witness :
    normalize_search_result mockParse (PyVal.vStr "일시적 오류") = [] ∧
    (search_node mockParse (Except.error CollabErr.timeout)
      (build_turn_state "도움이 필요해요" "s5")).search_result = some [] :=
  ⟨(normalize_total mockParse).2.2.2.2.1 "일시적 오류" rfl,
   (normalize_total mockParse).2.2.2.2.2.2.2.2.2.1 CollabErr.timeout _⟩

/-- C7: `recordTurn` creates the session record if absent, increments
`crisis_cnt` by exactly one iff the turn's crisis flag is set, overwrites
`last_summary` iff the summary is present and non-empty, appends exactly
one history sample whose scores are the turn's scores clamped into
[0, 100] (zero when absent), and stamps `updated` with the current time. -/
theorem recordTurn_spec (prev : Option SessionRecord) (final : GState)
    (now : Int) :
    (recordTurn none final now = recordTurn (some freshRecord) final now) ∧
    ((recordTurn prev final now).crisis_cnt =
      (prev.getD freshRecord).crisis_cnt +
        (if final.crisis then 1 else 0)) ∧
    ((recordTurn prev final now).last_summary =
      (match final.summary with
       | some t => if t ≠ "" then t else (prev.getD freshRecord).last_summary
       | none => (prev.getD freshRecord).last_summary)) ∧
    ((recordTurn prev final now).hist =
      (prev.getD freshRecord).hist ++
        [⟨now, clamp100 (final.anxiety.getD 0),
          clamp100 (final.depression.getD 0),
          clamp100 (final.stress.getD 0)⟩]) ∧
    (∀ q : Rat, 0 ≤ clamp100 q ∧ clamp100 q ≤ 100) ∧
    ((recordTurn prev final now).updated = some now) := by
  have hb : ∀ q : Rat, 0 ≤ clamp100 q ∧ clamp100 q ≤ 100 := by
    intro q
    unfold clamp100
    exact ⟨le_max_left 0 _, max_le (by norm_num) (min_le_left _ _)⟩
  refine ⟨rfl, ?_, ?_, ?_, hb, ?_⟩
  · rcases hs : final.summary with _ | t
    · cases hc : final.crisis <;> simp [recordTurn, hs, hc]
    · by_cases ht : t = "" <;> cases hc : final.crisis <;>
        simp [recordTurn, hs, hc, ht]
  · rcases hs : final.summary with _ | t
    · cases hc : final.crisis <;> simp [recordTurn, hs, hc]
    · by_cases ht : t = "" <;> cases hc : final.crisis <;>
        simp [recordTurn, hs, hc, ht]
  · rcases hs : final.summary with _ | t
    · cases hc : final.crisis <;> simp [recordTurn, hs, hc]
    · by_cases ht : t = "" <;> cases hc : final.crisis <;>
        simp [recordTurn, hs, hc, ht]
  · rcases hs : final.summary with _ | t
    · cases hc : final.crisis <;> simp [recordTurn, hs, hc]
    · by_cases ht : t = "" <;> cases hc : final.crisis <;>
        simp [recordTurn, hs, hc, ht]

/-- C8, evaluated at the failing input: the spec's crisis scenario run end
to end on the mocked collaborators (Evaluate says crisis with anxiety 80,
Search returns one record). Routing, search, reply and crisis counting all
behave as the claim states — the graph executes counselor, evaluator,
routes to the tools (search) node, loops through counselor and evaluator
again, then summarizes; the reply is non-empty; `crisis_cnt` is 1; exactly
one history sample is appended — but that sample records anxiety 0, not
80: `anxiety` is not a channel of the `State` TypedDict, LangGraph drops
`evaluator_node`'s write to it (`final_scores_absent`), and
`_invoke_hermes` reads `final.get("anxiety", 0.0)` as 0.0. -/
theorem crisis_scenario_zero_scores :
    invoke_hermes mockCollab mockParse none 1000 "요즘 너무 힘들어요" "s1" =
      Except.ok
        ({ reply := mockReply, crisis := true, end_session := false,
           need_summary := false, search_result := [mockRecord] },
         { crisis_cnt := 1, last_summary := mockSummary,
           updated := some 1000, hist := [⟨1000, 0, 0, 0⟩] }) ∧
    (graphInvoke mockCollab mockParse
        (build_turn_state "요즘 너무 힘들어요" "s1")).map Prod.snd =
      Except.ok [NodeId.counselor, NodeId.evaluator, NodeId.tools,
        NodeId.counselor, NodeId.evaluator, NodeId.summarize] ∧
    mockReply.isEmpty = false ∧
    crisisEval.anxiety = RawNum.num 80 :=
  ⟨rfl, rfl, rfl, rfl⟩

/-- C9: the dashboard's sample filter keeps a history sample iff its
timestamp is at least `now - 7 days`: a sample one second older than the
window is in no average, weekly bucket or count (all are computed from the
filtered list, and each weekly bucket is a sub-filter of it), while a
sample at `now - 6d23h59m` is kept. -/
theorem dashboard_window (sessions : List SessionRecord) (now : Int)
    (h : HistEntry) :
    (h ∈ all_hist sessions now ↔
      seven_days_ago now ≤ h.ts ∧ ∃ st ∈ sessions, h ∈ st.hist) ∧
    (h.ts = now - (7 * 86400 + 1) → h ∉ all_hist sessions now) ∧
    (h.ts = now - (7 * 86400 - 60) → (∃ st ∈ sessions, h ∈ st.hist) →
      h ∈ all_hist sessions now) ∧
    (∀ day, h ∈ day_hist (all_hist sessions now) day →
      h ∈ all_hist sessions now) := by
  have hmem : h ∈ all_hist sessions now ↔
      seven_days_ago now ≤ h.ts ∧ ∃ st ∈ sessions, h ∈ st.hist := by
    simp only [all_hist, List.mem_flatMap, List.mem_filter,
      decide_eq_true_eq]
    exact ⟨fun ⟨st, hst, hh, hts⟩ => ⟨hts, st, hst, hh⟩,
      fun ⟨hts, st, hst, hh⟩ => ⟨st, hst, hh, hts⟩⟩
  refine ⟨hmem, ?_, ?_, ?_⟩
  · intro hts hin
    have := (hmem.mp hin).1
    simp only [seven_days_ago] at this
    omega
  · intro hts hex
    refine hmem.mpr ⟨?_, hex⟩
    simp only [seven_days_ago]
    omega
  · intro day hin
    exact (List.mem_filter.mp hin).1

/-- Witness for C9: with one session holding one sample at each side of the
boundary (now = 1000000), the older sample is excluded and the newer one
included. -/
theorem dashboard_window_witness :
    (⟨395199, 1, 2, 3⟩ : HistEntry) ∉
      all_hist [⟨0, "", some 1000000,
        [⟨395199, 1, 2, 3⟩, ⟨395260, 4, 5, 6⟩]⟩] 1000000 ∧
    (⟨395260, 4, 5, 6⟩ : HistEntry) ∈
      all_hist [⟨0, "", some 1000000,
        [⟨395199, 1, 2, 3⟩, ⟨395260, 4, 5, 6⟩]⟩] 1000000 :=
  ⟨(dashboard_window _ 1000000 _).2.1 (by norm_num),
   (dashboard_window _ 1000000 _).2.2.1 (by norm_num)
     ⟨⟨0, "", some 1000000, [⟨395199, 1, 2, 3⟩, ⟨395260, 4, 5, 6⟩]⟩,
      by simp, by simp⟩⟩

/-- C10: `api_chat` strips the supplied `thread_id` only after the
truthiness fallback, so a non-empty all-whitespace `thread_id` is not
replaced by a fresh UUID — it is stripped to the empty string and the empty
string keys the session; the fresh UUID is used only when the field is
absent, `None`, or exactly the empty string. -/
theorem thread_id_resolution (s fresh : String) :
    (resolve_thread_id none fresh = pyStrip fresh) ∧
    (resolve_thread_id (some "") fresh = pyStrip fresh) ∧
    (s ≠ "" → resolve_thread_id (some s) fresh = pyStrip s) ∧
    (s ≠ "" → pyStrip s = "" → resolve_thread_id (some s) fresh = "") := by
  refine ⟨rfl, rfl, ?_, ?_⟩
  · intro hs
    simp [resolve_thread_id, hs]
  · intro hs ht
    simp [resolve_thread_id, hs, ht]

/-- Witness for C10: the three-space `thread_id` is kept (no fresh UUID)
and stripped to the empty-string session key. -/
theorem thread_id_resolution_witness :
    resolve_thread_id (some "   ") "3f2a-uuid" = "" :=
  (thread_id_resolution "   " "3f2a-uuid").2.2.2 (by decide) (by decide)

end App
